import Mathlib

/-!
Shallow embedding of the tk-trivia service: the question store
(src/src/data_store.py), the two get-question handlers (src/main.py and
src/src/main.py), and the answer judge (src/src/openai_client.py) with the
verify-answer use case (src/src/main.py).

Strings are Lean strings; Python dict rows from csv.DictReader become the
RawRow structure (the seven fixed columns of the dataset, header already
consumed); the outcome of the remote chat-completion call is passed in as
an explicit value, since the remote service is outside the repository.
-/

/-- Model of Python str.strip: drop leading and trailing whitespace
characters. Defined over the character list so it reduces in the kernel. -/
def pyStrip (s : String) : String :=
  String.mk (((s.data.dropWhile Char.isWhitespace).reverse.dropWhile
    Char.isWhitespace).reverse)

/-- Numeric value of a list of decimal digit characters, most significant
first. -/
def digitsVal (ds : List Char) : Nat :=
  ds.foldl (fun acc c => acc * 10 + (c.toNat - Char.toNat '0')) 0

/-- Model of Python int(s) on a string: strip whitespace, accept an optional
sign followed by a nonempty run of decimal digits, otherwise raise
ValueError (here: Except.error with the ValueError message text). -/
def parsePyInt (s : String) : Except String Int :=
  let cs := (pyStrip s).data
  let sd : Bool × List Char :=
    match cs with
    | '-' :: rest => (true, rest)
    | '+' :: rest => (false, rest)
    | _ => (false, cs)
  if sd.2.isEmpty then
    Except.error ("invalid literal for int() with base 10: " ++ s)
  else if sd.2.all Char.isDigit then
    Except.ok (if sd.1 then -(digitsVal sd.2 : Int) else (digitsVal sd.2 : Int))
  else
    Except.error ("invalid literal for int() with base 10: " ++ s)

/-- One raw data row of the CSV dataset, as csv.DictReader hands it to
TriviaDataStore.get_all_records: the seven named columns, values not yet
stripped. -/
structure RawRow where
  showNumber : String
  airDate : String
  round : String
  category : String
  value : String
  question : String
  answer : String
  deriving DecidableEq, Repr

/-- TriviaRecord from src/src/data_store.py: one parsed row of the
dataset. -/
structure TriviaRecord where
  question_id : Int
  show_number : Int
  air_date : String
  round : String
  category : String
  value : String
  question : String
  answer : String
  deriving DecidableEq, Repr

/-- The TriviaRecord construction of get_all_records for one row at a given
CSV line number: strip every field, parse the stripped show number as an
integer (failure aborts), and take question_id from the line number. -/
def parseRecord (line_number : Nat) (r : RawRow) : Except String TriviaRecord :=
  match parsePyInt (pyStrip r.showNumber) with
  | Except.error e => Except.error e
  | Except.ok n =>
    Except.ok { question_id := (line_number : Int), show_number := n,
                air_date := pyStrip r.airDate, round := pyStrip r.round,
                category := pyStrip r.category, value := pyStrip r.value,
                question := pyStrip r.question, answer := pyStrip r.answer }

/-- The loop of get_all_records: rows are numbered from the given CSV line
number (enumerate(reader, start=2)); the first failing row aborts the whole
load. -/
def loadFrom : Nat → List RawRow → Except String (List TriviaRecord)
  | _, [] => Except.ok []
  | line_number, r :: rs =>
    match parseRecord line_number r with
    | Except.error e => Except.error e
    | Except.ok t =>
      match loadFrom (line_number + 1) rs with
      | Except.error e => Except.error e
      | Except.ok ts => Except.ok (t :: ts)

/-- TriviaDataStore.get_all_records on the data rows of the backing file
(the header line is line 1, so data rows are numbered from 2). A row that
fails to parse turns into the HTTPException 500 whose detail wraps the
underlying error. -/
def get_all_records (rows : List RawRow) : Except String (List TriviaRecord) :=
  match loadFrom 2 rows with
  | Except.error e => Except.error ("Error reading data source: " ++ e)
  | Except.ok ts => Except.ok ts

/-- TriviaDataStore.get_record_by_question_id: reload all records, then
linear scan for the first record with the given question_id; None when
absent. -/
def get_record_by_question_id (rows : List RawRow) (question_id : Int) :
    Except String (Option TriviaRecord) :=
  match get_all_records rows with
  | Except.error e => Except.error e
  | Except.ok records =>
    Except.ok (records.find? (fun t => t.question_id == question_id))

/-- The filtering step of get_question in src/src/main.py: the records whose
round and value both equal the query strings. -/
def matching_records (records : List TriviaRecord) (round value : String) :
    List TriviaRecord :=
  records.filter (fun t => t.round == round && t.value == value)

/-- A JSON-ish value as it appears in the handlers' response dictionaries. -/
inductive JVal where
  | num (n : Int)
  | str (s : String)
  deriving DecidableEq, Repr

/-- The response dictionary built by get_question in src/src/main.py: the
record's public fields, the answer left out. -/
def question_payload (t : TriviaRecord) : List (String × JVal) :=
  [("question_id", JVal.num t.question_id), ("round", JVal.str t.round),
   ("category", JVal.str t.category), ("value", JVal.str t.value),
   ("question", JVal.str t.question)]

/-- The response dictionary built per matching row by get_question in the
root src/main.py, expressed over the parsed record: identical to
question_payload except that question_id carries the row's show number. -/
def root_payload (t : TriviaRecord) : List (String × JVal) :=
  [("question_id", JVal.num t.show_number), ("round", JVal.str t.round),
   ("category", JVal.str t.category), ("value", JVal.str t.value),
   ("question", JVal.str t.question)]

/-- Outcome of a get-question request: HTTPException 500, HTTPException 404,
or a 200 payload. -/
inductive GetQuestionResult where
  | serverError (detail : String)
  | notFound (detail : String)
  | ok (payload : List (String × JVal))
  deriving DecidableEq, Repr

/-- get_question of src/src/main.py: load every record through the store,
filter by round and value, 404 when nothing matches, otherwise return the
public fields of one matching record. random.choice is modelled by the
explicit index pick, reduced modulo the number of matches. -/
def get_question (rows : List RawRow) (round value : String) (pick : Nat) :
    GetQuestionResult :=
  match get_all_records rows with
  | Except.error e => GetQuestionResult.serverError e
  | Except.ok records =>
    if hne : matching_records records round value = [] then
      GetQuestionResult.notFound ("No questions found for round='" ++ round ++
        "' and value='" ++ value ++ "'")
    else
      GetQuestionResult.ok (question_payload
        ((matching_records records round value).get
          ⟨pick % (matching_records records round value).length,
           Nat.mod_lt pick (List.length_pos.mpr hne)⟩))

/-- The scan of get_question in the root src/main.py: walk the raw rows,
strip each, keep those matching round and value, and build each kept row's
response dictionary with question_id taken from int(row at Show Number);
a failing int conversion aborts the whole scan. -/
def root_collect (round value : String) :
    List RawRow → Except String (List (List (String × JVal)))
  | [] => Except.ok []
  | r :: rs =>
    if pyStrip r.round == round && pyStrip r.value == value then
      match parsePyInt (pyStrip r.showNumber) with
      | Except.error e => Except.error e
      | Except.ok n =>
        match root_collect round value rs with
        | Except.error e => Except.error e
        | Except.ok ps =>
          Except.ok
            ([("question_id", JVal.num n), ("round", JVal.str (pyStrip r.round)),
              ("category", JVal.str (pyStrip r.category)),
              ("value", JVal.str (pyStrip r.value)),
              ("question", JVal.str (pyStrip r.question))] :: ps)
    else root_collect round value rs

/-- get_question of the root src/main.py: collect the matching rows'
response dictionaries (500 on a read error), 404 when none match, otherwise
return one of them; random.choice is modelled by the explicit index pick. -/
def root_get_question (rows : List RawRow) (round value : String) (pick : Nat) :
    GetQuestionResult :=
  match root_collect round value rows with
  | Except.error e =>
    GetQuestionResult.serverError ("Error reading CSV file: " ++ e)
  | Except.ok ps =>
    if hne : ps = [] then
      GetQuestionResult.notFound ("No questions found for round='" ++ round ++
        "' and value='" ++ value ++ "'")
    else
      GetQuestionResult.ok
        (ps.get ⟨pick % ps.length, Nat.mod_lt pick (List.length_pos.mpr hne)⟩)

/-- Outcome of json.loads on the AI reply content, restricted to what
verify_trivia_answer inspects: either json.JSONDecodeError, or a JSON object
carrying an optional is_correct boolean and an optional explanation
string. -/
inductive JsonParse where
  | failure
  | object (is_correct : Option Bool) (explanation : Option String)
  deriving DecidableEq, Repr

/-- Outcome of the remote chat-completion round trip as seen inside
verify_trivia_answer: an httpx.HTTPError (network failure, timeout or
raise_for_status on a non-2xx reply), any other exception while reading the
transport response (missing choices, message or content), or a delivered
reply content together with its json.loads classification. -/
inductive RemoteResult where
  | transportError (msg : String)
  | malformedReply (msg : String)
  | reply (content : String) (parsed : JsonParse)
  deriving DecidableEq, Repr

/-- The dictionary verify_trivia_answer returns on success. -/
structure Verdict where
  is_correct : Bool
  explanation : String
  raw_ai_response : String
  deriving DecidableEq, Repr

/-- What a call of verify_trivia_answer does: raise an exception with the
given message, or return a verdict dictionary. -/
inductive JudgeOutcome where
  | raised (msg : String)
  | ok (v : Verdict)
  deriving DecidableEq, Repr

/-- Whether an outcome is a returned verdict rather than a raised
exception. -/
def JudgeOutcome.isOk : JudgeOutcome → Bool
  | JudgeOutcome.raised _ => false
  | JudgeOutcome.ok _ => true

/-- OpenAIClient.verify_trivia_answer of src/src/openai_client.py as a
function of the remote outcome: an httpx.HTTPError is re-raised as
"OpenAI API request failed", any other exception as "Unexpected error
calling OpenAI API"; a delivered reply whose content is not valid JSON
yields the fallback verdict, and a JSON object's missing keys are filled by
dict.get defaults. -/
def verify_trivia_answer : RemoteResult → JudgeOutcome
  | RemoteResult.transportError e =>
    JudgeOutcome.raised ("OpenAI API request failed: " ++ e)
  | RemoteResult.malformedReply e =>
    JudgeOutcome.raised ("Unexpected error calling OpenAI API: " ++ e)
  | RemoteResult.reply content JsonParse.failure =>
    JudgeOutcome.ok { is_correct := false,
                      explanation := "Error parsing AI response",
                      raw_ai_response := content }
  | RemoteResult.reply content (JsonParse.object ic ex) =>
    JudgeOutcome.ok { is_correct := ic.getD false,
                      explanation := ex.getD "Unable to parse AI response",
                      raw_ai_response := content }

/-- Outcome of a verify-answer request: HTTPException 500 from the store,
HTTPException 404 for an unknown id, or the VerifyAnswerResponse body. -/
inductive VerifyAnswerResult where
  | serverError (detail : String)
  | notFound (detail : String)
  | ok (correct : Bool) (ai_response : String)
  deriving DecidableEq, Repr

/-- verify_answer of src/src/main.py: look the record up by id (404 when
absent), ask the judge, and on any exception from the judge fall back to
exact string equality with the stored answer, the stored answer serving as
the response text. -/
def verify_answer (rows : List RawRow) (question_id : Int)
    (user_answer : String) (remote : RemoteResult) : VerifyAnswerResult :=
  match get_record_by_question_id rows question_id with
  | Except.error e => VerifyAnswerResult.serverError e
  | Except.ok none =>
    VerifyAnswerResult.notFound ("Question with ID " ++ toString question_id ++
      " not found")
  | Except.ok (some record) =>
    match verify_trivia_answer remote with
    | JudgeOutcome.ok v => VerifyAnswerResult.ok v.is_correct v.explanation
    | JudgeOutcome.raised _ =>
      VerifyAnswerResult.ok (user_answer == record.answer) record.answer

/-- First demo data row (already clean of padding). -/
def demoRow1 : RawRow :=
  { showNumber := "4680", airDate := "2004-12-31", round := "Jeopardy!",
    category := "HISTORY", value := "$200", question := "Q1", answer := "Paris" }

/-- Second demo data row, padded with whitespace. -/
def demoRow2 : RawRow :=
  { showNumber := " 4680 ", airDate := "2004-12-31", round := "Jeopardy!",
    category := "HISTORY", value := " $400 ", question := "Q2", answer := "Rome" }

/-- The record the store builds from demoRow1 (line 2 of the file). -/
def demoRecord1 : TriviaRecord :=
  { question_id := 2, show_number := 4680, air_date := "2004-12-31",
    round := "Jeopardy!", category := "HISTORY", value := "$200",
    question := "Q1", answer := "Paris" }

/-- The record the store builds from demoRow2 (line 3 of the file). -/
def demoRecord2 : TriviaRecord :=
  { question_id := 3, show_number := 4680, air_date := "2004-12-31",
    round := "Jeopardy!", category := "HISTORY", value := "$400",
    question := "Q2", answer := "Rome" }

/-- A two-row demo dataset. -/
def demoRows : List RawRow := [demoRow1, demoRow2]

/-- The records loaded from demoRows. -/
def demoRecs : List TriviaRecord := [demoRecord1, demoRecord2]

/-- A row whose show-number field is not an integer. -/
def badRow : RawRow :=
  { showNumber := "invalid_number", airDate := "2004-12-31",
    round := "Jeopardy!", category := "HISTORY", value := "$200",
    question := "Q1", answer := "Paris" }

/-- A fully padded one-row dataset entry. -/
def padRow : RawRow :=
  { showNumber := " 10 ", airDate := " 2000-01-01 ", round := " Jeopardy! ",
    category := " HIST ", value := " $100 ", question := " Q ", answer := " A " }

/-- The record the store builds from padRow. -/
def padRecord : TriviaRecord :=
  { question_id := 2, show_number := 10, air_date := "2000-01-01",
    round := "Jeopardy!", category := "HIST", value := "$100",
    question := "Q", answer := "A" }

/-- The padded one-row dataset. -/
def padRows : List RawRow := [padRow]

/-- The records loaded from padRows. -/
def padRecs : List TriviaRecord := [padRecord]

/-- A record built by parseRecord carries the line number as id, the parsed
stripped show number, and the stripped text fields of its source row. -/
theorem parseRecord_ok_spec (ln : Nat) (r : RawRow) (t : TriviaRecord)
    (h : parseRecord ln r = Except.ok t) :
    t.question_id = (ln : Int) ∧
    parsePyInt (pyStrip r.showNumber) = Except.ok t.show_number ∧
    t.air_date = pyStrip r.airDate ∧ t.round = pyStrip r.round ∧
    t.category = pyStrip r.category ∧ t.value = pyStrip r.value ∧
    t.question = pyStrip r.question ∧ t.answer = pyStrip r.answer := by
  unfold parseRecord at h
  cases hp : parsePyInt (pyStrip r.showNumber) with
  | error e => rw [hp] at h; simp at h
  | ok n =>
    rw [hp] at h
    cases h
    exact ⟨rfl, rfl, rfl, rfl, rfl, rfl, rfl, rfl⟩

/-- parseRecord fails exactly when the stripped show number is not an
integer, and it hands the underlying parse error through. -/
theorem parseRecord_error_iff (ln : Nat) (r : RawRow) (e : String) :
    parseRecord ln r = Except.error e ↔
    parsePyInt (pyStrip r.showNumber) = Except.error e := by
  unfold parseRecord
  cases hp : parsePyInt (pyStrip r.showNumber) <;> simp

/-- Inversion of one step of the load loop. -/
theorem loadFrom_cons_ok (ln : Nat) (r : RawRow) (rs : List RawRow)
    (recs : List TriviaRecord) (h : loadFrom ln (r :: rs) = Except.ok recs) :
    ∃ t ts, parseRecord ln r = Except.ok t ∧
      loadFrom (ln + 1) rs = Except.ok ts ∧ recs = t :: ts := by
  unfold loadFrom at h
  cases hp : parseRecord ln r with
  | error e => rw [hp] at h; simp at h
  | ok t =>
    rw [hp] at h
    cases hl : loadFrom (ln + 1) rs with
    | error e => rw [hl] at h; simp at h
    | ok ts =>
      rw [hl] at h
      cases h
      exact ⟨t, ts, rfl, rfl, rfl⟩

/-- The load loop returns one record per row, the i-th record parsed from
the i-th row at line number start + i. -/
theorem loadFrom_ok_spec :
    ∀ (rows : List RawRow) (ln : Nat) (recs : List TriviaRecord),
      loadFrom ln rows = Except.ok recs →
      recs.length = rows.length ∧
      ∀ i r, rows[i]? = some r →
        ∃ t, recs[i]? = some t ∧ parseRecord (ln + i) r = Except.ok t := by
  intro rows
  induction rows with
  | nil =>
    intro ln recs h
    unfold loadFrom at h
    cases h
    exact ⟨rfl, by intro i r hr; simp at hr⟩
  | cons r rs ih =>
    intro ln recs h
    obtain ⟨t, ts, hp, hl, rfl⟩ := loadFrom_cons_ok ln r rs recs h
    obtain ⟨hlen, helem⟩ := ih (ln + 1) ts hl
    refine ⟨by simp [hlen], ?_⟩
    intro i r' hr
    cases i with
    | zero =>
      simp only [List.getElem?_cons_zero, Option.some.injEq] at hr
      subst hr
      exact ⟨t, by simp, by simpa using hp⟩
    | succ n =>
      simp only [List.getElem?_cons_succ] at hr
      obtain ⟨t', ht', hpt⟩ := helem n r' hr
      refine ⟨t', by simpa using ht', ?_⟩
      have harith : ln + (n + 1) = (ln + 1) + n := by omega
      rw [harith]
      exact hpt

/-- get_all_records succeeds exactly when the load loop started at line 2
does. -/
theorem get_all_records_ok_iff (rows : List RawRow) (recs : List TriviaRecord) :
    get_all_records rows = Except.ok recs ↔ loadFrom 2 rows = Except.ok recs := by
  unfold get_all_records
  cases h : loadFrom 2 rows <;> simp

/-- The per-index description of a successful full load. -/
theorem get_all_records_ok_spec (rows : List RawRow) (recs : List TriviaRecord)
    (h : get_all_records rows = Except.ok recs) :
    recs.length = rows.length ∧
    ∀ i r, rows[i]? = some r →
      ∃ t, recs[i]? = some t ∧ parseRecord (2 + i) r = Except.ok t :=
  loadFrom_ok_spec rows 2 recs ((get_all_records_ok_iff rows recs).mp h)

/-- In a successful load the record at index i carries question_id i + 2. -/
theorem get_all_records_id (rows : List RawRow) (recs : List TriviaRecord)
    (h : get_all_records rows = Except.ok recs) :
    ∀ (i : Nat) (t : TriviaRecord),
      recs[i]? = some t → t.question_id = (i : Int) + 2 := by
  obtain ⟨hlen, helem⟩ := get_all_records_ok_spec rows recs h
  intro i t ht
  have hi : i < recs.length := (List.getElem?_eq_some.mp ht).1
  have hir : i < rows.length := hlen ▸ hi
  obtain ⟨t', ht', hpt⟩ := helem i (rows[i]) (List.getElem?_eq_getElem hir)
  have htt : t' = t := by
    rw [ht] at ht'
    exact (Option.some.inj ht').symm
  subst htt
  have hid := (parseRecord_ok_spec _ _ _ hpt).1
  rw [hid]
  push_cast
  ring

/-- Two records of one successful load that share a question_id are the same
record. -/
theorem get_all_records_id_inj (rows : List RawRow) (recs : List TriviaRecord)
    (h : get_all_records rows = Except.ok recs) :
    ∀ (i j : Nat) (a b : TriviaRecord), recs[i]? = some a → recs[j]? = some b →
      a.question_id = b.question_id → a = b := by
  intro i j a b ha hb hab
  have h1 := get_all_records_id rows recs h i a ha
  have h2 := get_all_records_id rows recs h j b hb
  rw [h1, h2] at hab
  have hij : i = j := by omega
  subst hij
  rw [ha] at hb
  exact Option.some.inj hb

/-- Every record of a successful load comes from some row of the dataset. -/
theorem get_all_records_mem (rows : List RawRow) (recs : List TriviaRecord)
    (h : get_all_records rows = Except.ok recs) :
    ∀ t ∈ recs, ∃ r ∈ rows, ∃ ln, parseRecord ln r = Except.ok t := by
  obtain ⟨hlen, helem⟩ := get_all_records_ok_spec rows recs h
  intro t ht
  obtain ⟨i, hi⟩ := List.mem_iff_getElem?.mp ht
  have hilt : i < recs.length := (List.getElem?_eq_some.mp hi).1
  have hir : i < rows.length := hlen ▸ hilt
  obtain ⟨t', ht', hpt⟩ := helem i (rows[i]) (List.getElem?_eq_getElem hir)
  have htt : t' = t := by
    rw [hi] at ht'
    exact (Option.some.inj ht').symm
  subst htt
  exact ⟨rows[i], List.getElem_mem hir, 2 + i, hpt⟩

/-- If some row's stripped show number is not an integer, the load loop
fails, and the error it reports is the parse error of such a row. -/
theorem loadFrom_error_of_bad :
    ∀ (rows : List RawRow) (ln : Nat),
      (∃ r ∈ rows, ∃ e, parsePyInt (pyStrip r.showNumber) = Except.error e) →
      ∃ r ∈ rows, ∃ e, parsePyInt (pyStrip r.showNumber) = Except.error e ∧
        loadFrom ln rows = Except.error e := by
  intro rows
  induction rows with
  | nil => intro ln h; simp at h
  | cons r rs ih =>
    intro ln h
    cases hp : parseRecord ln r with
    | error e =>
      have hpe := (parseRecord_error_iff ln r e).mp hp
      refine ⟨r, List.mem_cons_self r rs, e, hpe, ?_⟩
      unfold loadFrom
      rw [hp]
    | ok t =>
      obtain ⟨r0, hr0, e0, he0⟩ := h
      have hsn := (parseRecord_ok_spec ln r t hp).2.1
      have hr0rs : r0 ∈ rs := by
        cases List.mem_cons.mp hr0 with
        | inl heq =>
          subst heq
          rw [he0] at hsn
          simp at hsn
        | inr hmem => exact hmem
      obtain ⟨r1, hr1, e1, he1, hl⟩ := ih (ln + 1) ⟨r0, hr0rs, e0, he0⟩
      refine ⟨r1, List.mem_cons_of_mem r hr1, e1, he1, ?_⟩
      unfold loadFrom
      rw [hp, hl]

/-- When the data-store load succeeds, the root handler's scan succeeds too
and produces exactly the show-number-keyed payload of each matching record,
in order. -/
theorem root_collect_spec :
    ∀ (rows : List RawRow) (ln : Nat) (recs : List TriviaRecord)
      (round value : String),
      loadFrom ln rows = Except.ok recs →
      root_collect round value rows =
        Except.ok ((matching_records recs round value).map root_payload) := by
  intro rows
  induction rows with
  | nil =>
    intro ln recs round value h
    unfold loadFrom at h
    cases h
    simp [root_collect, matching_records]
  | cons r rs ih =>
    intro ln recs round value h
    obtain ⟨t, ts, hp, hl, rfl⟩ := loadFrom_cons_ok ln r rs recs h
    obtain ⟨-, hsn, -, hround, hcat, hval, hq, -⟩ := parseRecord_ok_spec ln r t hp
    have hrec := ih (ln + 1) ts round value hl
    unfold root_collect
    rw [← hround, ← hval, ← hcat, ← hq, hsn, hrec]
    unfold matching_records
    rw [List.filter_cons]
    by_cases hc : (t.round == round && t.value == value) = true
    · simp only [hc, if_true, List.map_cons]
      simp [root_payload]
    · simp [hc]

/-- C1 (amended): a dataset whose load succeeds with N data rows yields ids
2..N+1 in file order: the record at 0-based position i carries question_id
i + 2, the CSV line number of its row (line 1 being the header), not i + 1. -/
theorem c1_ids_follow_line_numbers (rows : List RawRow)
    (recs : List TriviaRecord) (h : get_all_records rows = Except.ok recs) :
    recs.length = rows.length ∧
    ∀ (i : Nat) (t : TriviaRecord),
      recs[i]? = some t → t.question_id = (i : Int) + 2 :=
  ⟨(get_all_records_ok_spec rows recs h).1, get_all_records_id rows recs h⟩

/-- C1 counterexample: loading a one-row dataset succeeds and assigns the
first (and only) data row the id 2, not the id 1 the claim requires. -/
theorem c1_counterexample :
    (get_all_records [demoRow1]).map (fun l => l.map fun t => t.question_id) =
      Except.ok [(2 : Int)] ∧ ¬ ([(2 : Int)] = [1]) :=
  ⟨rfl, by decide⟩

/-- C1 witness: on the two-row demo dataset the amended theorem gives the
ids 2 and 3 for positions 0 and 1. -/
theorem c1_witness :
    demoRecord1.question_id = (0 : Int) + 2 ∧
    demoRecord2.question_id = (1 : Int) + 2 := by
  have h := c1_ids_follow_line_numbers demoRows demoRecs (by rfl)
  exact ⟨h.2 0 demoRecord1 (by rfl), h.2 1 demoRecord2 (by rfl)⟩

/-- C2 (amended): only when the delivered reply content fails JSON parsing
does verify_trivia_answer return the is_correct false verdict with
explanation "Error parsing AI response"; an outright remote failure
(httpx.HTTPError or a malformed transport response) raises an exception
instead of returning a verdict, so this layer does not always hand the
caller a verdict object. -/
theorem c2_parse_failure_only_default :
    (∀ content : String,
      verify_trivia_answer (RemoteResult.reply content JsonParse.failure) =
        JudgeOutcome.ok { is_correct := false,
                          explanation := "Error parsing AI response",
                          raw_ai_response := content }) ∧
    (∀ msg : String,
      JudgeOutcome.isOk (verify_trivia_answer (RemoteResult.transportError msg)) = false ∧
      JudgeOutcome.isOk (verify_trivia_answer (RemoteResult.malformedReply msg)) = false) :=
  ⟨fun _ => rfl, fun _ => ⟨rfl, rfl⟩⟩

/-- C2 counterexample: on a transport failure verify_trivia_answer raises
the wrapped exception rather than returning the well-formed default verdict
the claim promises. -/
theorem c2_counterexample :
    verify_trivia_answer (RemoteResult.transportError "connection timeout") =
      JudgeOutcome.raised ("OpenAI API request failed: connection timeout") ∧
    JudgeOutcome.isOk
      (verify_trivia_answer (RemoteResult.transportError "connection timeout")) = false :=
  ⟨rfl, rfl⟩

/-- C3: when the record is found and the judge raises any exception, the
verify-answer use case returns correct = (user answer equals the stored
answer, case-sensitively) with the stored answer as the response text. -/
theorem c3_fallback_exact_match (rows : List RawRow) (qid : Int)
    (ua : String) (remote : RemoteResult) (t : TriviaRecord)
    (hfind : get_record_by_question_id rows qid = Except.ok (some t))
    (hraise : ∃ msg, verify_trivia_answer remote = JudgeOutcome.raised msg) :
    verify_answer rows qid ua remote =
      VerifyAnswerResult.ok (ua == t.answer) t.answer ∧
    ((ua == t.answer) = true ↔ ua = t.answer) := by
  obtain ⟨msg, hmsg⟩ := hraise
  constructor
  · unfold verify_answer
    rw [hfind, hmsg]
  · exact beq_iff_eq

/-- C3 witness: on the demo dataset with the remote judge down, the exact
answer Paris verifies as correct and London as incorrect, both explained by
the stored answer Paris. -/
theorem c3_witness :
    verify_answer demoRows 2 "Paris" (RemoteResult.transportError "down") =
      VerifyAnswerResult.ok true "Paris" ∧
    verify_answer demoRows 2 "London" (RemoteResult.transportError "down") =
      VerifyAnswerResult.ok false "Paris" := by
  have h1 := c3_fallback_exact_match demoRows 2 "Paris"
    (RemoteResult.transportError "down") demoRecord1 (by rfl) ⟨_, rfl⟩
  have h2 := c3_fallback_exact_match demoRows 2 "London"
    (RemoteResult.transportError "down") demoRecord1 (by rfl) ⟨_, rfl⟩
  exact ⟨h1.1, h2.1⟩

/-- C4: a dataset with a row whose stripped show number is not an integer
fails to load as a whole: get_all_records reports the underlying parse
error of such a row wrapped in the data-source message, and returns no
record list at all. -/
theorem c4_bad_show_number_fails_load (rows : List RawRow)
    (h : ∃ r ∈ rows, ∃ e, parsePyInt (pyStrip r.showNumber) = Except.error e) :
    (∃ r ∈ rows, ∃ e, parsePyInt (pyStrip r.showNumber) = Except.error e ∧
      get_all_records rows =
        Except.error ("Error reading data source: " ++ e)) ∧
    ∀ recs, ¬ get_all_records rows = Except.ok recs := by
  obtain ⟨r, hr, e, he, hl⟩ := loadFrom_error_of_bad rows 2 h
  have hga : get_all_records rows =
      Except.error ("Error reading data source: " ++ e) := by
    unfold get_all_records
    rw [hl]
  refine ⟨⟨r, hr, e, he, hga⟩, ?_⟩
  intro recs hc
  rw [hga] at hc
  simp at hc

/-- C4 witness: the dataset containing the row with show number text
invalid_number fails the whole load with the wrapped ValueError. -/
theorem c4_witness :
    get_all_records [badRow] = Except.error
      ("Error reading data source: invalid literal for int() with base 10: invalid_number") := by
  have h := c4_bad_show_number_fails_load [badRow]
    ⟨badRow, by simp, "invalid literal for int() with base 10: invalid_number", by rfl⟩
  obtain ⟨⟨r, hr, e, he, hga⟩, -⟩ := h
  have hrb : r = badRow := List.mem_singleton.mp hr
  subst hrb
  have hee : e = "invalid literal for int() with base 10: invalid_number" := by
    have hcalc : parsePyInt (pyStrip badRow.showNumber) = Except.error
        ("invalid literal for int() with base 10: invalid_number") := by rfl
    rw [he] at hcalc
    exact Except.error.inj hcalc
  subst hee
  exact hga

/-- C5: on a successfully loaded dataset the criteria filter returns exactly
the loaded records whose round and value equal the query strings, and when
nothing matches the endpoint answers 404 not-found instead of crashing. -/
theorem c5_find_by_criteria (rows : List RawRow) (round value : String)
    (recs : List TriviaRecord) (h : get_all_records rows = Except.ok recs) :
    (∀ t, t ∈ matching_records recs round value ↔
      t ∈ recs ∧ t.round = round ∧ t.value = value) ∧
    (matching_records recs round value = [] → ∀ pick,
      get_question rows round value pick = GetQuestionResult.notFound
        ("No questions found for round='" ++ round ++ "' and value='" ++
          value ++ "'")) := by
  constructor
  · intro t
    simp [matching_records, List.mem_filter, and_assoc]
  · intro hemp pick
    unfold get_question
    rw [h]
    simp [hemp]

/-- C5 witness: querying the demo dataset for a value no record carries
produces the 404 message, not an error. -/
theorem c5_witness :
    get_question demoRows "Jeopardy!" "$1000" 0 = GetQuestionResult.notFound
      ("No questions found for round='Jeopardy!' and value='$1000'") := by
  exact (c5_find_by_criteria demoRows "Jeopardy!" "$1000" demoRecs
    (by rfl)).2 (by rfl) 0

/-- C6: every successful get-question response carries exactly the keys
question_id, round, category, value and question; the answer key is never
among them. -/
theorem c6_answer_withheld (rows : List RawRow) (round value : String)
    (pick : Nat) (payload : List (String × JVal))
    (h : get_question rows round value pick = GetQuestionResult.ok payload) :
    payload.map Prod.fst =
      ["question_id", "round", "category", "value", "question"] ∧
    ¬ ("answer" ∈ payload.map Prod.fst) := by
  unfold get_question at h
  cases ha : get_all_records rows with
  | error e => rw [ha] at h; simp at h
  | ok recs =>
    rw [ha] at h
    dsimp only at h
    by_cases hm : matching_records recs round value = []
    · simp [hm] at h
    · rw [dif_neg hm] at h
      have hp : question_payload ((matching_records recs round value).get
          ⟨pick % (matching_records recs round value).length,
           Nat.mod_lt pick (List.length_pos.mpr hm)⟩) = payload :=
        GetQuestionResult.ok.inj h
      rw [← hp]
      refine ⟨rfl, ?_⟩
      simp [question_payload]

/-- C6 witness: the payload for the demo question carries the five public
keys and withholds the answer. -/
theorem c6_witness :
    (question_payload demoRecord1).map Prod.fst =
      ["question_id", "round", "category", "value", "question"] ∧
    ¬ ("answer" ∈ (question_payload demoRecord1).map Prod.fst) := by
  exact c6_answer_withheld demoRows "Jeopardy!" "$200" 0
    (question_payload demoRecord1) (by rfl)

/-- C7: on a successfully loaded dataset the lookup by id never fails: it
returns some record exactly when a record with that id was loaded, that
record is the unique one carrying the id, and it returns none when no
record carries the id. -/
theorem c7_find_by_id (rows : List RawRow) (qid : Int)
    (recs : List TriviaRecord) (h : get_all_records rows = Except.ok recs) :
    ∃ o, get_record_by_question_id rows qid = Except.ok o ∧
      (∀ t, o = some t → t ∈ recs ∧ t.question_id = qid) ∧
      (o = none → ∀ t ∈ recs, t.question_id ≠ qid) ∧
      (∀ t ∈ recs, t.question_id = qid → o = some t) := by
  refine ⟨recs.find? (fun t => t.question_id == qid), ?_, ?_, ?_, ?_⟩
  · unfold get_record_by_question_id
    rw [h]
  · intro t hfo
    exact ⟨List.mem_of_find?_eq_some hfo,
      by simpa using List.find?_some hfo⟩
  · intro hnone t ht
    have := List.find?_eq_none.mp hnone t ht
    simpa using this
  · intro t ht hq
    cases hfo : recs.find? (fun t => t.question_id == qid) with
    | none =>
      exact absurd (by simpa using hq) (List.find?_eq_none.mp hfo t ht)
    | some u =>
      have huq : u.question_id = qid := by simpa using List.find?_some hfo
      obtain ⟨i, hi⟩ := List.mem_iff_getElem?.mp ht
      obtain ⟨j, hj⟩ := List.mem_iff_getElem?.mp (List.mem_of_find?_eq_some hfo)
      have hut : u = t :=
        get_all_records_id_inj rows recs h j i u t hj hi (by rw [huq, hq])
      rw [hut]

/-- C7 witness: id 3 finds the second demo record; the absent id 99 yields
none rather than an error. -/
theorem c7_witness :
    get_record_by_question_id demoRows 3 = Except.ok (some demoRecord2) := by
  obtain ⟨o, ho, hsome, hnone, huniq⟩ := c7_find_by_id demoRows 3 demoRecs (by rfl)
  have h2 : o = some demoRecord2 := huniq demoRecord2 (by decide) (by rfl)
  rw [h2] at ho
  exact ho

/-- C8: every record of a successful load has each of its string fields
equal to the stripped text of its source row's field, and its show number
parsed from the stripped show-number text, so no loaded record carries
untrimmed padding. -/
theorem c8_fields_trimmed (rows : List RawRow) (recs : List TriviaRecord)
    (h : get_all_records rows = Except.ok recs) :
    ∀ t ∈ recs, ∃ r ∈ rows,
      t.air_date = pyStrip r.airDate ∧ t.round = pyStrip r.round ∧
      t.category = pyStrip r.category ∧ t.value = pyStrip r.value ∧
      t.question = pyStrip r.question ∧ t.answer = pyStrip r.answer ∧
      parsePyInt (pyStrip r.showNumber) = Except.ok t.show_number := by
  intro t ht
  obtain ⟨r, hr, ln, hpt⟩ := get_all_records_mem rows recs h t ht
  obtain ⟨-, h2, h3, h4, h5, h6, h7, h8⟩ := parseRecord_ok_spec ln r t hpt
  exact ⟨r, hr, h3, h4, h5, h6, h7, h8, h2⟩

/-- C8 witness: the record loaded from the fully padded row consists of the
stripped field texts. -/
theorem c8_witness :
    padRecord.round = pyStrip " Jeopardy! " ∧
    padRecord.answer = pyStrip " A " ∧ padRecord.round = "Jeopardy!" := by
  obtain ⟨r, hr, h1, h2, h3, h4, h5, h6, h7⟩ :=
    c8_fields_trimmed padRows padRecs (by rfl) padRecord (by decide)
  have hrp : r = padRow := List.mem_singleton.mp hr
  subst hrp
  exact ⟨h2, h6, rfl⟩

/-- C9 (amended): on a dataset the store loads successfully, the two
get-question handlers select from the same candidate set — the root scan
yields exactly one payload per record of matching_records, in order, and
with the same pick both return the payload of the same matching record —
but the payloads differ in the id they assign: they agree on every entry
except the first, where src/src/main.py reports the record's line-number
question_id while the root src/main.py reports the row's show number. -/
theorem c9_handlers_relation (rows : List RawRow) (round value : String)
    (recs : List TriviaRecord) (h : get_all_records rows = Except.ok recs) :
    root_collect round value rows =
      Except.ok ((matching_records recs round value).map root_payload) ∧
    (∀ pick, matching_records recs round value ≠ [] →
      ∃ t, t ∈ matching_records recs round value ∧
        get_question rows round value pick =
          GetQuestionResult.ok (question_payload t) ∧
        root_get_question rows round value pick =
          GetQuestionResult.ok (root_payload t)) ∧
    (∀ t : TriviaRecord,
      (question_payload t).tail = (root_payload t).tail ∧
      (question_payload t).head? = some ("question_id", JVal.num t.question_id) ∧
      (root_payload t).head? = some ("question_id", JVal.num t.show_number)) := by
  have hrc := root_collect_spec rows 2 recs round value
    ((get_all_records_ok_iff rows recs).mp h)
  refine ⟨hrc, ?_, fun t => ⟨rfl, rfl, rfl⟩⟩
  intro pick hne
  have hk : pick % (matching_records recs round value).length <
      (matching_records recs round value).length :=
    Nat.mod_lt pick (List.length_pos.mpr hne)
  refine ⟨(matching_records recs round value).get
    ⟨pick % (matching_records recs round value).length, hk⟩,
    List.get_mem _ _ _, ?_, ?_⟩
  · unfold get_question
    rw [h]
    dsimp only
    rw [dif_neg hne]
  · unfold root_get_question
    rw [hrc]
    have hpne : (matching_records recs round value).map root_payload ≠ [] := by
      simpa using hne
    dsimp only
    rw [dif_neg hpne]
    simp [List.get_eq_getElem, List.getElem_map]

/-- C9 counterexample: on the one-row demo dataset both handlers pick the
same row, but the response of src/src/main.py carries question_id 2 (the
line number) while the root src/main.py response carries question_id 4680
(the show number): the handlers do not assign the same question_id. -/
theorem c9_counterexample :
    get_question [demoRow1] "Jeopardy!" "$200" 0 = GetQuestionResult.ok
      [("question_id", JVal.num 2), ("round", JVal.str "Jeopardy!"),
       ("category", JVal.str "HISTORY"), ("value", JVal.str "$200"),
       ("question", JVal.str "Q1")] ∧
    root_get_question [demoRow1] "Jeopardy!" "$200" 0 = GetQuestionResult.ok
      [("question_id", JVal.num 4680), ("round", JVal.str "Jeopardy!"),
       ("category", JVal.str "HISTORY"), ("value", JVal.str "$200"),
       ("question", JVal.str "Q1")] ∧
    ¬ ((2 : Int) = 4680) :=
  ⟨rfl, rfl, by decide⟩

/-- C9 witness: the amended relation instantiated on the demo dataset with
pick 0: the handlers return the matching record's two payload variants. -/
theorem c9_witness :
    get_question demoRows "Jeopardy!" "$200" 0 =
      GetQuestionResult.ok (question_payload demoRecord1) ∧
    root_get_question demoRows "Jeopardy!" "$200" 0 =
      GetQuestionResult.ok (root_payload demoRecord1) := by
  obtain ⟨t, ht, h1, h2⟩ :=
    (c9_handlers_relation demoRows "Jeopardy!" "$200" demoRecs (by rfl)).2.1 0
      (by decide)
  have htd : t ∈ [demoRecord1] := ht
  have hteq : t = demoRecord1 := List.mem_singleton.mp htd
  subst hteq
  exact ⟨h1, h2⟩

/-- C10: a delivered reply that parses as a JSON object still yields a
returned verdict with no exception; a missing is_correct key defaults the
verdict to false and a missing explanation key defaults the explanation to
"Unable to parse AI response", a different text from the JSON-parse-failure
default. -/
theorem c10_missing_keys_default :
    (∀ (content : String) (ex : Option String),
      verify_trivia_answer (RemoteResult.reply content (JsonParse.object none ex)) =
        JudgeOutcome.ok { is_correct := false,
                          explanation := ex.getD "Unable to parse AI response",
                          raw_ai_response := content }) ∧
    (∀ (content : String) (ic : Option Bool),
      verify_trivia_answer (RemoteResult.reply content (JsonParse.object ic none)) =
        JudgeOutcome.ok { is_correct := ic.getD false,
                          explanation := "Unable to parse AI response",
                          raw_ai_response := content }) ∧
    ¬ ("Unable to parse AI response" = "Error parsing AI response") :=
  ⟨fun _ _ => rfl, fun _ _ => rfl, by decide⟩
